import Mathlib

/-!
Shallow embedding of the OAuth facade in `src/auth/SlackAuthProvider.ts` and
the tool dispatch in `src/Tools.ts`, with theorems checking the repository's
specification against it.

Conventions of the embedding:
* machine randomness (uuid bytes, `crypto.randomBytes`) is passed in as
  explicit byte-list parameters;
* external collaborators (the `@slack/oauth` InstallProvider, `JSON.parse`,
  the filesystem) appear as explicit parameters or small operation traces:
  the repository's own control flow around them is translated faithfully;
* JavaScript `Map` objects become association lists with `Map.set/get/delete`
  semantics; strings are `String` or `List Char`; bytes are `Nat` values.
-/

/-! ## Bytes and hex -/

/-- Lowercase hex digits, as produced by Node's `toString('hex')` and by the
`uuid` library. Out-of-range indices (impossible for nibbles) default to '0'. -/
def hexDigit (n : Nat) : Char :=
  "0123456789abcdef".toList.getD n '0'

/-- Two lowercase hex digits of one byte. -/
def byteToHex (b : Nat) : List Char :=
  [hexDigit (b / 16 % 16), hexDigit (b % 16)]

/-- Hex rendering of a byte list, e.g. `crypto.randomBytes(32).toString('hex')`. -/
def bytesToHexChars (bs : List Nat) : List Char :=
  (bs.map byteToHex).flatten

/-! ## SHA-256 (FIPS 180-4), executable over byte lists

`crypto.createHash('sha256')` in `generatePkce` is Node's SHA-256; this is
the same function over `List Nat` bytes with 32-bit words as `Nat % 2^32`. -/

/-- Truncate to a 32-bit word. -/
def w32 (n : Nat) : Nat := n % 4294967296

/-- Rotate a 32-bit word right by `r`. -/
def rotr32 (r b : Nat) : Nat := w32 (b / 2 ^ r + b % 2 ^ r * 2 ^ (32 - r))

def bsig0 (x : Nat) : Nat := rotr32 2 x ^^^ rotr32 13 x ^^^ rotr32 22 x

def bsig1 (x : Nat) : Nat := rotr32 6 x ^^^ rotr32 11 x ^^^ rotr32 25 x

def ssig0 (x : Nat) : Nat := rotr32 7 x ^^^ rotr32 18 x ^^^ x / 2 ^ 3

def ssig1 (x : Nat) : Nat := rotr32 17 x ^^^ rotr32 19 x ^^^ x / 2 ^ 10

def chNat (x y z : Nat) : Nat := (x &&& y) ^^^ ((x ^^^ 4294967295) &&& z)

def majNat (x y z : Nat) : Nat := (x &&& y) ^^^ (x &&& z) ^^^ (y &&& z)

/-- The 64 SHA-256 round constants. -/
def sha256K : List Nat :=
  [1116352408, 1899447441, 3049323471, 3921009573, 961987163,
   1508970993, 2453635748, 2870763221, 3624381080, 310598401,
   607225278, 1426881987, 1925078388, 2162078206, 2614888103,
   3248222580, 3835390401, 4022224774, 264347078, 604807628,
   770255983, 1249150122, 1555081692, 1996064986, 2554220882,
   2821834349, 2952996808, 3210313671, 3336571891, 3584528711,
   113926993, 338241895, 666307205, 773529912, 1294757372,
   1396182291, 1695183700, 1986661051, 2177026350, 2456956037,
   2730485921, 2820302411, 3259730800, 3345764771, 3516065817,
   3600352804, 4094571909, 275423344, 430227734, 506948616,
   659060556, 883997877, 958139571, 1322822218, 1537002063,
   1747873779, 1955562222, 2024104815, 2227730452, 2361852424,
   2428436474, 2756734187, 3204031479, 3329325298]

/-- The SHA-256 initial hash value. -/
def sha256H0 : List Nat :=
  [1779033703, 3144134277, 1013904242, 2773480762,
   1359893119, 2600822924, 528734635, 1541459225]

/-- Merkle–Damgård padding: append 0x80, zeros, and the 64-bit big-endian
bit length, to a multiple of 64 bytes. -/
def padMessage (msg : List Nat) : List Nat :=
  let bitLen := msg.length * 8
  msg ++ [128] ++ List.replicate ((64 - (msg.length + 9) % 64) % 64) 0 ++
    [bitLen / 2 ^ 56 % 256, bitLen / 2 ^ 48 % 256, bitLen / 2 ^ 40 % 256,
     bitLen / 2 ^ 32 % 256, bitLen / 2 ^ 24 % 256, bitLen / 2 ^ 16 % 256,
     bitLen / 2 ^ 8 % 256, bitLen % 256]

/-- Big-endian 4-byte groups to 32-bit words. -/
def bytesToWords : List Nat → List Nat
  | a :: b :: c :: d :: rest =>
      (a * 16777216 + b * 65536 + c * 256 + d) :: bytesToWords rest
  | _ => []

/-- Split a byte list into 64-byte blocks. -/
def chunks64 (l : List Nat) : List (List Nat) :=
  if h : l = [] then [] else l.take 64 :: chunks64 (l.drop 64)
termination_by l.length
decreasing_by
  have hp : 0 < l.length := List.length_pos.mpr h
  simp [List.length_drop]
  omega

/-- One message-schedule extension step: append
`σ1(w[t-2]) + w[t-7] + σ0(w[t-15]) + w[t-16]`. -/
def scheduleStep (w : List Nat) : List Nat :=
  w ++ [w32 (ssig1 (w.getD (w.length - 2) 0) + w.getD (w.length - 7) 0 +
             ssig0 (w.getD (w.length - 15) 0) + w.getD (w.length - 16) 0)]

/-- Extend 16 words to the 64-word schedule. -/
def schedule (ws : List Nat) : List Nat :=
  (List.range 48).foldl (fun w _ => scheduleStep w) ws

/-- One SHA-256 round on the 8-word working state, given `(W_t, K_t)`. -/
def compressStep (s : List Nat) (wk : Nat × Nat) : List Nat :=
  let a := s.getD 0 0
  let b := s.getD 1 0
  let c := s.getD 2 0
  let d := s.getD 3 0
  let e := s.getD 4 0
  let f := s.getD 5 0
  let g := s.getD 6 0
  let h := s.getD 7 0
  let t1 := w32 (h + bsig1 e + chNat e f g + wk.2 + wk.1)
  let t2 := w32 (bsig0 a + majNat a b c)
  [w32 (t1 + t2), a, b, c, w32 (d + t1), e, f, g]

/-- Compress one 64-byte block into the running hash. -/
def processBlock (hs : List Nat) (block : List Nat) : List Nat :=
  let s := ((schedule (bytesToWords block)).zip sha256K).foldl compressStep hs
  (hs.zip s).map (fun p => w32 (p.1 + p.2))

/-- Big-endian bytes of one 32-bit word. -/
def wordToBytes (n : Nat) : List Nat :=
  [n / 16777216 % 256, n / 65536 % 256, n / 256 % 256, n % 256]

/-- SHA-256 digest (32 bytes) of a byte list. -/
def sha256 (msg : List Nat) : List Nat :=
  (((chunks64 (padMessage msg)).foldl processBlock sha256H0).map wordToBytes).flatten

/-- UTF-8 bytes of an ASCII character list (all strings hashed by this
program are ASCII, so one byte per character). -/
def strBytes (l : List Char) : List Nat := l.map Char.toNat

/-! ## uuid v4 and base64 (the `uuid` library and Node's `base64` digest) -/

/-- uuid v4 string (36 characters) formatted from 16 random bytes per
RFC 4122: hex groups 8-4-4-4-12 separated by hyphens, version nibble forced
to 4 (`0x40 | (b6 & 0x0f)`) and variant bits to 10 (`0x80 | (b8 & 0x3f)`). -/
def uuidv4 (bs : List Nat) : List Char :=
  bytesToHexChars [bs.getD 0 0, bs.getD 1 0, bs.getD 2 0, bs.getD 3 0] ++ ['-'] ++
  bytesToHexChars [bs.getD 4 0, bs.getD 5 0] ++ ['-'] ++
  bytesToHexChars [64 + bs.getD 6 0 % 16, bs.getD 7 0] ++ ['-'] ++
  bytesToHexChars [128 + bs.getD 8 0 % 64, bs.getD 9 0] ++ ['-'] ++
  bytesToHexChars [bs.getD 10 0, bs.getD 11 0, bs.getD 12 0,
                   bs.getD 13 0, bs.getD 14 0, bs.getD 15 0]

/-- The standard base64 alphabet. -/
def b64Alphabet : List Char :=
  "ABCDEFGHIJKLMNOPQRSTUVWXYZabcdefghijklmnopqrstuvwxyz0123456789+/".toList

/-- Character for a 6-bit group in standard base64. -/
def b64Char (n : Nat) : Char := b64Alphabet.getD (n % 64) 'A'

/-- Standard base64 with `=` padding, as produced by `.digest('base64')`. -/
def base64encode : List Nat → List Char
  | [] => []
  | [a] => [b64Char (a / 4), b64Char (a % 4 * 16), '=', '=']
  | [a, b] => [b64Char (a / 4), b64Char (a % 4 * 16 + b / 16), b64Char (b % 16 * 4), '=']
  | a :: b :: c :: rest =>
      b64Char (a / 4) :: b64Char (a % 4 * 16 + b / 16) ::
      b64Char (b % 16 * 4 + c / 64) :: b64Char (c % 64) :: base64encode rest

/-- `.replace(/\+/g, '-')` over the characters. -/
def replacePlus (l : List Char) : List Char :=
  l.map (fun c => if c = '+' then '-' else c)

/-- `.replace(/\//g, '_')` over the characters. -/
def replaceSlash (l : List Char) : List Char :=
  l.map (fun c => if c = '/' then '_' else c)

/-- `.replace(/=/g, '')` over the characters. -/
def stripEq (l : List Char) : List Char :=
  l.filter (fun c => c ≠ '=')

/-- The chain of replacements `generatePkce` applies to the base64 digest. -/
def b64UrlTransform (l : List Char) : List Char :=
  stripEq (replaceSlash (replacePlus l))

/-- Modelled from the spec: the base64url alphabet (RFC 4648 §5). -/
def b64UrlAlphabet : List Char :=
  "ABCDEFGHIJKLMNOPQRSTUVWXYZabcdefghijklmnopqrstuvwxyz0123456789-_".toList

/-- Modelled from the spec: character for a 6-bit group in base64url. -/
def b64UrlChar (n : Nat) : Char := b64UrlAlphabet.getD (n % 64) 'A'

/-- Modelled from the spec: "base64url-no-padding" — direct base64url
encoding with no padding characters, for comparison with the source's
replace-chain construction. -/
def base64UrlNoPad : List Nat → List Char
  | [] => []
  | [a] => [b64UrlChar (a / 4), b64UrlChar (a % 4 * 16)]
  | [a, b] => [b64UrlChar (a / 4), b64UrlChar (a % 4 * 16 + b / 16), b64UrlChar (b % 16 * 4)]
  | a :: b :: c :: rest =>
      b64UrlChar (a / 4) :: b64UrlChar (a % 4 * 16 + b / 16) ::
      b64UrlChar (b % 16 * 4 + c / 64) :: b64UrlChar (c % 64) :: base64UrlNoPad rest

/-- RFC 3986 unreserved characters: ALPHA / DIGIT / "-" / "." / "_" / "~". -/
def isUnreservedChar (c : Char) : Bool :=
  (decide ('A' ≤ c) && decide (c ≤ 'Z')) ||
  (decide ('a' ≤ c) && decide (c ≤ 'z')) ||
  (decide ('0' ≤ c) && decide (c ≤ '9')) ||
  c == '-' || c == '.' || c == '_' || c == '~'

/-! ## PKCE generation (`SlackAuthProvider.generatePkce`) -/

/-- The S256 challenge computation `generatePkce` performs on a verifier:
SHA-256, standard base64, then the `+`/`/`/`=` replacements. -/
def computeChallenge (verifier : List Char) : List Char :=
  b64UrlTransform (base64encode (sha256 (strBytes verifier)))

/-- `generatePkce`: the verifier is `uuidv4() + uuidv4() + uuidv4()` and the
challenge is the S256 transform of it. The three uuids' random bytes are the
explicit parameters. -/
def generatePkce (r1 r2 r3 : List Nat) : List Char × List Char :=
  let verifier := uuidv4 r1 ++ uuidv4 r2 ++ uuidv4 r3
  (verifier, computeChallenge verifier)

/-! ## Data model (`SessionData.ts` fields as constructed in
`SlackAuthProvider.authorize`; client records per `@modelcontextprotocol` /
the spec's RegisteredClient, reduced to the fields this repository reads) -/

structure OAuthClientInformationFull where
  client_id : String
  redirect_uris : List String
deriving Repr, DecidableEq

structure SessionData where
  clientId : String
  state : String
  codeVerifier : List Char
  redirectUri : String
  originalState : String
  clientCodeChallenge : String
  clientCodeChallengeMethod : String
deriving Repr, DecidableEq

/-! JavaScript `Map` as an association list: `set` replaces in place or
appends, `get` finds, `delete` removes; insertion order preserved. -/

def mapSet {α : Type} (m : List (String × α)) (k : String) (v : α) : List (String × α) :=
  if m.any (fun p => p.1 == k) then m.map (fun p => if p.1 == k then (k, v) else p)
  else m ++ [(k, v)]

def mapGet {α : Type} (m : List (String × α)) (k : String) : Option α :=
  (m.find? (fun p => p.1 == k)).map Prod.snd

def mapDelete {α : Type} (m : List (String × α)) (k : String) : List (String × α) :=
  m.filter (fun p => p.1 != k)

abbrev SessionStore : Type := List (String × SessionData)

abbrev ClientsMap : Type := List (String × OAuthClientInformationFull)

/-- Modelled from the spec: the Token Store entry (`src/auth/TokenStore.ts`
is not under `src/`): an issued session token maps to resolved identity
data; only its presence matters to the embedded claims. -/
structure TokenData where
  userId : String
deriving Repr, DecidableEq

abbrev TokenStoreMap : Type := List (String × TokenData)

/-- Modelled from the spec: `tokenStore.getToken` — "get(token) -> identity
| not-found", a pure lookup. -/
def tokenStoreGetToken (m : TokenStoreMap) (tok : String) : Option TokenData :=
  mapGet m tok

/-! ## Session store operations (`_storeSessionData` / `_getSessionData` /
`_clearSessionData`) -/

/-- `_storeSessionData`: throws when `state` is falsy (empty string),
otherwise `Map.set`. -/
def storeSessionData (store : SessionStore) (state : String) (d : SessionData) :
    Except String SessionStore :=
  if state = "" then .error "Cannot store session data: state parameter is missing"
  else .ok (mapSet store state d)

/-- `_getSessionData`: `Map.get`. -/
def getSessionData (store : SessionStore) (state : String) : Option SessionData :=
  mapGet store state

/-- `_clearSessionData`: `Map.delete` (defined in the source but never
invoked by `handleCallback`). -/
def clearSessionData (store : SessionStore) (state : String) : SessionStore :=
  mapDelete store state

/-! ## Client registry (`clientsStore`, `_loadClientsFromFile`,
`_saveClientsToFile`) -/

/-- `clientsStore.getClient`. -/
def getClient (m : ClientsMap) (clientId : String) : Option OAuthClientInformationFull :=
  mapGet m clientId

/-- `clientsStore.registerClient`: `Map.set` keyed by `client.client_id`
(the asynchronous `_saveClientsToFile` it then triggers is the trace below). -/
def registerClient (m : ClientsMap) (client : OAuthClientInformationFull) : ClientsMap :=
  mapSet m client.client_id client

inductive LoadOutcome
  | noFileEmptyStart
  | errorLogged (msg : String)
  | loaded (n : Nat)
deriving Repr, DecidableEq

/-- `_loadClientsFromFile`. The filesystem and `JSON.parse` (a JS builtin)
are represented by their outcome: `none` = absent file (`fs.access` rejects,
logged as an empty start); `some (.error e)` = file present but reading or
parsing threw `e` (caught, logged via `console.error`, and execution
continues); `some (.ok entries)` = file parsed to `entries`, whereupon the
map is cleared and refilled. Returns the resulting in-memory map and what
happened. -/
def loadClientsFromFile (m : ClientsMap)
    (file : Option (Except String (List (String × OAuthClientInformationFull)))) :
    ClientsMap × LoadOutcome :=
  match file with
  | none => (m, .noFileEmptyStart)
  | some (.error e) => (m, .errorLogged e)
  | some (.ok entries) =>
      let loadedMap := entries.foldl (fun acc p => mapSet acc p.1 p.2) ([] : ClientsMap)
      (loadedMap, .loaded loadedMap.length)

/-- `path.resolve(process.cwd(), 'registered_clients.json')`, reduced to the
file name (the directory prefix plays no role). -/
def clientsFilePath : String := "registered_clients.json"

inductive FsOp
  | writeFile (path : String) (content : List Char)
  | rename (src dst : String)
deriving Repr, DecidableEq

/-- `_saveClientsToFile`: one direct `fs.writeFile` of the serialized
registry (`JSON.stringify(clientsObject, null, 2)`, a JS builtin, passed
here as the rendered `content`) to `_clientsFilePath`. No temporary file and
no rename appear in the source. -/
def saveClientsOps (content : List Char) : List FsOp :=
  [FsOp.writeFile clientsFilePath content]

abbrev FileSys : Type := List (String × List Char)

/-- Filesystem semantics of one completed operation. -/
def applyFsOp (fs : FileSys) : FsOp → FileSys
  | .writeFile p c => mapSet fs p c
  | .rename src dst =>
      match mapGet fs src with
      | none => fs
      | some c => mapSet (mapDelete fs src) dst c

def runFsOps (fs : FileSys) (ops : List FsOp) : FileSys :=
  ops.foldl applyFsOp fs

/-- POSIX semantics of an interrupted `fs.writeFile` (open with `O_TRUNC`,
then sequential writes): a crash after `k` bytes leaves the target holding
`content.take k`; the prior content is destroyed at truncation. -/
def writeFileCrashed (fs : FileSys) (p : String) (content : List Char) (k : Nat) : FileSys :=
  mapSet fs p (content.take k)

/-- Modelled from the spec: a trace durably replaces `path` "atomically
(write-then-rename or equivalent)" only if it never writes directly to
`path`; new content may reach `path` only through a rename. -/
def atomicReplaceTrace (path : String) (ops : List FsOp) : Bool :=
  ops.all (fun op =>
    match op with
    | .writeFile p _ => p != path
    | .rename _ _ => true)

/-! ## `authorize` -/

inductive HttpResponse
  | redirect (url : String)
  | serverError (body : String)
deriving Repr, DecidableEq

/-- The options object `authorize` passes to
`installer.generateInstallUrl`: exactly `{scopes: ['chat:write'],
redirectUri}` — these are its only fields; in particular no state value is
among them. -/
structure InstallUrlOptions where
  scopes : List String
  redirectUri : String
deriving Repr, DecidableEq

/-- The install-URL options built from the client: fixed scope list and
`client.redirect_uris[0]`. -/
def authorizeInstallOptions (client : OAuthClientInformationFull) : InstallUrlOptions :=
  { scopes := ["chat:write"], redirectUri := client.redirect_uris.getD 0 "" }

/-- `crypto.randomBytes(32).toString('hex')`: the internally generated state. -/
def authorizeState (stateBytes : List Nat) : String :=
  String.mk (bytesToHexChars stateBytes)

/-- The `SessionData` object `authorize` constructs. -/
def authorizeSessionData (client : OAuthClientInformationFull)
    (paramsState paramsCodeChallenge : String)
    (r1 r2 r3 stateBytes : List Nat) : SessionData :=
  { clientId := client.client_id
    state := authorizeState stateBytes
    codeVerifier := (generatePkce r1 r2 r3).1
    redirectUri := client.redirect_uris.getD 0 ""
    originalState := paramsState
    clientCodeChallenge := paramsCodeChallenge
    clientCodeChallengeMethod := "S256" }

/-- `authorize`. Randomness is explicit (`r1 r2 r3` for the PKCE uuids,
`stateBytes` for the state). `installResult` is the outcome of the external
call `installer.generateInstallUrl (authorizeInstallOptions client)`: `.ok
url` if it resolved, `.error e` if it threw. The whole body sits in one
`try`: a throw from `_storeSessionData` (before the store mutates) or from
URL generation (after the session is stored) lands in the same `catch`,
which responds 500 and performs no cleanup. -/
def authorize (store : SessionStore) (client : OAuthClientInformationFull)
    (paramsState paramsCodeChallenge : String)
    (r1 r2 r3 stateBytes : List Nat)
    (installResult : Except String String) : SessionStore × HttpResponse :=
  let state := authorizeState stateBytes
  let sessionData := authorizeSessionData client paramsState paramsCodeChallenge r1 r2 r3 stateBytes
  match storeSessionData store state sessionData with
  | .error e => (store, .serverError ("Failed to initialize authentication: Error: " ++ e))
  | .ok store2 =>
      match installResult with
      | .error e => (store2, .serverError ("Failed to initialize authentication: " ++ e))
      | .ok url => (store2, .redirect url)

/-! ## `handleCallback` -/

structure CallbackResult where
  redirectUrl : String
  success : Bool
  error : Option String
deriving Repr, DecidableEq

inductive InstallerCallbackOutcome
  | succeeded
  | threw (e : String)
deriving Repr, DecidableEq

/-- `handleCallback`. `outcome` says whether the external
`installer.handleCallback` call resolved (running the empty `success`
handler) or threw. When the state is unknown the function returns the
invalid-state result; when the installer throws, the `catch` returns the
failure result; when it resolves, control falls off the end of the TS
function with no return statement (`none` here, i.e. `undefined`). The
session store and the token store are threaded through so consumption and
issuance are visible: no path deletes the session or touches tokens. -/
def handleCallback (store : SessionStore) (tokens : TokenStoreMap) (state : String)
    (outcome : InstallerCallbackOutcome) :
    SessionStore × TokenStoreMap × Option CallbackResult :=
  match getSessionData store state with
  | none =>
      (store, tokens, some { redirectUrl := "", success := false,
                             error := some "Invalid state parameter" })
  | some _ =>
      match outcome with
      | .succeeded => (store, tokens, none)
      | .threw _ =>
          (store, tokens, some { redirectUrl := "", success := false,
                                 error := some "Failed to handle callback" })

/-! ## Token endpoint stubs -/

structure OAuthTokens where
  access_token : String
deriving Repr, DecidableEq

/-- Failure vocabulary: `thrown msg` is a plain `throw new Error(msg)`;
`pkceValidationError` is the spec taxonomy's PKCE-mismatch failure, present
so the claim about it can be stated. -/
inductive ProviderFailure
  | thrown (msg : String)
  | pkceValidationError
deriving Repr, DecidableEq

/-- `exchangeAuthorizationCode`: the source body is
`throw new Error('Method not implemented.')`. -/
def exchangeAuthorizationCode (client : OAuthClientInformationFull)
    (authorizationCode : String) : Except ProviderFailure OAuthTokens :=
  .error (.thrown "Method not implemented.")

/-- `challengeForAuthorizationCode`: same unimplemented stub. -/
def challengeForAuthorizationCode (client : OAuthClientInformationFull)
    (authorizationCode : String) : Except ProviderFailure String :=
  .error (.thrown "Method not implemented.")

/-! ## Tool dispatch (`src/Tools.ts`, CallToolRequestSchema handler) -/

structure ToolContent where
  type : String
  text : String
deriving Repr, DecidableEq

structure ToolResult where
  content : List ToolContent
deriving Repr, DecidableEq

/-- A handler run either returns a tool result to the transport or throws
out of the handler (a protocol-level error). -/
inductive HandlerOutcome
  | result (r : ToolResult)
  | protocolError (msg : String)
deriving Repr, DecidableEq

/-- The static success text of the getUserDetails branch. -/
def userDetailsSuccessText : String :=
  "User Details:\n                Name: asdfasdf\n                Email: asdfasdf\n                UPN: asdfsdf"

/-- The GET_USER_DETAILS branch (lines 139–173): inside its `try`, a missing
session token or a token unknown to the Token Store throws, and the `catch`
converts the message into an ordinary text result prefixed
"Error getting user details: ". -/
def getUserDetailsBranch (sessionToken : Option String) (tokens : TokenStoreMap) : ToolResult :=
  match sessionToken with
  | none =>
      { content := [{ type := "text",
                      text := "Error getting user details: No authentication token provided" }] }
  | some tok =>
      match tokenStoreGetToken tokens tok with
      | none =>
          { content := [{ type := "text",
                          text := "Error getting user details: Invalid or expired session token" }] }
      | some _ => { content := [{ type := "text", text := userDetailsSuccessText }] }

/-- The CallToolRequestSchema handler's dispatch on the tool name.
`sessionToken` is `request.params.context?.token`. The GET_SLACK_CHANNELS
branch calls the external Slack Web API; it is represented by its outcome
`slackOutcome`, which that branch's own `catch` renders as a text result
either way. An unknown tool name throws out of the handler. -/
def callToolHandler (name : String) (sessionToken : Option String)
    (tokens : TokenStoreMap) (slackOutcome : Except String String) : HandlerOutcome :=
  if name = "getSlackChannels" then
    match slackOutcome with
    | .ok txt => .result { content := [{ type := "text", text := txt }] }
    | .error e => .result { content := [{ type := "text", text := "Error getting channels: " ++ e }] }
  else if name = "getUserDetails" then
    .result (getUserDetailsBranch sessionToken tokens)
  else
    .protocolError ("Unknown tool: " ++ name)

/-! ## Concrete demonstration values (used by closed theorems) -/

/-- A registered client with one redirect URI, as in the spec's example
scenario. -/
def demoClient : OAuthClientInformationFull :=
  { client_id := "c1", redirect_uris := ["https://a/cb"] }

/-- 32 zero bytes standing for one concrete draw of `crypto.randomBytes(32)`. -/
def demoStateBytes : List Nat := List.replicate 32 0

/-- The internal state `authorize` derives from `demoStateBytes`. -/
def demoState : String := authorizeState demoStateBytes

/-- The `SessionData` record `authorize` builds for `demoClient` with
client-supplied state "orig123" and challenge "abc", at the all-zero
randomness draw. -/
def demoSessionData : SessionData :=
  authorizeSessionData demoClient "orig123" "abc" [] [] [] demoStateBytes

/-- A session store holding exactly the demo in-flight session. -/
def demoStore : SessionStore := [(demoState, demoSessionData)]

/-- A clients map already holding the demo client in memory. -/
def demoClientsMap : ClientsMap := [("c1", demoClient)]

/-! ## C3 -/

/-- C3: a callback whose state is not a key of the session store returns the
invalid-state error result; the session store and the token store are left
untouched, so no token or client-facing artifact is issued for that
request. -/
theorem handleCallback_unknown_state_fails (store : SessionStore) (tokens : TokenStoreMap)
    (state : String) (outcome : InstallerCallbackOutcome)
    (h : getSessionData store state = none) :
    handleCallback store tokens state outcome =
      (store, tokens, some { redirectUrl := "", success := false,
                             error := some "Invalid state parameter" }) := by
  simp [handleCallback, h]

/-- C3 witness: the empty store does not know state "forged"; the callback
fails with the invalid-state result and issues nothing. -/
theorem handleCallback_unknown_state_fails_witness :
    getSessionData [] "forged" = none ∧
    handleCallback [] [] "forged" .succeeded =
      ([], [], some { redirectUrl := "", success := false,
                      error := some "Invalid state parameter" }) :=
  ⟨by decide, handleCallback_unknown_state_fails [] [] "forged" .succeeded (by decide)⟩

/-! ## C10 -/

/-- C10: when the persisted file is present but parsing fails, the load
leaves the in-memory client map exactly as it was, so every client lookup
gives the same answer as before the load. -/
theorem loadClients_parse_failure_preserves_clients (m : ClientsMap) (e : String) :
    (loadClientsFromFile m (some (.error e))).1 = m ∧
    ∀ cid, getClient (loadClientsFromFile m (some (.error e))).1 cid = getClient m cid :=
  ⟨rfl, fun _ => rfl⟩

/-! ## C6 -/

/-- C6 counterexample: a malformed persisted file is not a fatal startup
error — the load returns normally with the error merely logged
(`.errorLogged`), and the process continues with the prior in-memory map. -/
theorem loadClients_malformed_not_fatal_counterexample :
    loadClientsFromFile demoClientsMap (some (.error "Unexpected token in JSON")) =
      (demoClientsMap, .errorLogged "Unexpected token in JSON") ∧
    loadClientsFromFile [] (some (.error "Unexpected token in JSON")) =
      ([], .errorLogged "Unexpected token in JSON") := ⟨rfl, rfl⟩

/-- C6 amended: an absent file leaves the registry as it was (empty at
startup) with no error, and a malformed file has its error logged
(surfaced) while the load returns normally — execution continues; it is not
fatal. -/
theorem loadClients_outcomes (m : ClientsMap) :
    loadClientsFromFile m none = (m, .noFileEmptyStart) ∧
    ∀ e, loadClientsFromFile m (some (.error e)) = (m, .errorLogged e) :=
  ⟨rfl, fun _ => rfl⟩

/-! ## C8 -/

/-- C8 counterexample: at a concrete client, code, and a verifier/challenge
pair that do not match, the exchange fails with the stub's generic
"Method not implemented." error, not with a PKCE validation error. -/
theorem exchangeAuthorizationCode_not_pkce_counterexample :
    exchangeAuthorizationCode demoClient "code1" =
      .error (.thrown "Method not implemented.") ∧
    exchangeAuthorizationCode demoClient "code1" ≠
      .error ProviderFailure.pkceValidationError := by
  exact ⟨rfl, by simp [exchangeAuthorizationCode]⟩

/-- C8 amended: `exchangeAuthorizationCode` is an unimplemented stub: for
every client and code it throws "Method not implemented."; in particular it
never issues tokens, but it performs no PKCE verification and never raises
the PKCE validation error. -/
theorem exchangeAuthorizationCode_stub (client : OAuthClientInformationFull) (code : String) :
    exchangeAuthorizationCode client code = .error (.thrown "Method not implemented.") ∧
    (∀ t : OAuthTokens, exchangeAuthorizationCode client code ≠ .ok t) ∧
    exchangeAuthorizationCode client code ≠ .error ProviderFailure.pkceValidationError :=
  ⟨rfl, fun _ => by simp [exchangeAuthorizationCode], by simp [exchangeAuthorizationCode]⟩

/-! ## Map lemmas -/

/-- `Map.set` followed by `Map.get` of the same key yields the stored value. -/
theorem mapGet_mapSet_self {α : Type} (m : List (String × α)) (k : String) (v : α) :
    mapGet (mapSet m k v) k = some v := by
  induction m with
  | nil => simp [mapSet, mapGet]
  | cons a rest ih =>
    by_cases h : a.1 = k
    · simp [mapSet, mapGet, h, List.find?]
    · by_cases hr : rest.any (fun p => p.1 == k) = true
      · simp [mapSet, mapGet, h, hr, List.find?] at ih ⊢
        exact ih
      · simp [mapSet, mapGet, h, hr, List.find?] at ih ⊢
        exact ih

/-- A nonempty byte draw yields a nonempty (hence truthy) state string, so
`_storeSessionData` cannot reject it. -/
theorem authorizeState_ne_empty (sb : List Nat) (h : sb ≠ []) : authorizeState sb ≠ "" := by
  cases sb with
  | nil => exact absurd rfl h
  | cons b rest =>
    intro hEq
    have hdata := congrArg String.data hEq
    simp [authorizeState, bytesToHexChars, byteToHex] at hdata

/-! ## C1 -/

/-- C1: the upstream authorization URL is requested WITHOUT the internally
generated state. At the concrete demo inputs: the options `authorize` hands
to `generateInstallUrl` are exactly the scope list and the first redirect
URI (no state field exists among them); the session is stored under the
internal state `demoState`; yet a state the install provider itself
generates and embeds in the URL — which is what the upstream callback later
carries — is not a key of the session store, so that callback resolves no
session and yields the invalid-state failure. -/
theorem authorize_internal_state_never_sent_upstream :
    authorizeInstallOptions demoClient =
      { scopes := ["chat:write"], redirectUri := "https://a/cb" } ∧
    (authorize [] demoClient "orig123" "abc" [] [] [] demoStateBytes
      (.ok "https://slack.example/install?state=slackGeneratedState")).1 = demoStore ∧
    getSessionData demoStore demoState = some demoSessionData ∧
    getSessionData demoStore "slackGeneratedState" = none ∧
    (handleCallback demoStore [] "slackGeneratedState" .succeeded).2.2 =
      some { redirectUrl := "", success := false,
             error := some "Invalid state parameter" } := by decide

/-! ## C2 -/

/-- C2: `handleCallback` never consumes the session. At the concrete demo
store: after a callback with the known state — whether the upstream
exchange resolves or throws — the session store is unchanged and the
SessionContext is still retrievable, and a second callback with the same
state does not fail as if the state were unknown. -/
theorem handleCallback_session_never_consumed :
    (handleCallback demoStore [] demoState .succeeded).1 = demoStore ∧
    (handleCallback demoStore [] demoState (.threw "upstream exchange failed")).1 = demoStore ∧
    getSessionData (handleCallback demoStore [] demoState .succeeded).1 demoState =
      some demoSessionData ∧
    (handleCallback (handleCallback demoStore [] demoState .succeeded).1 [] demoState
      .succeeded).2.2 ≠
      some { redirectUrl := "", success := false,
             error := some "Invalid state parameter" } := by decide

/-! ## C7 -/

/-- C7 counterexample: when upstream URL construction fails after the
session was stored, the user-agent gets the 500 response but the
SessionContext of the failed attempt is still in the session store — the
store does not end empty of it as the claim requires. -/
theorem authorize_url_failure_leaves_session_counterexample :
    (authorize [] demoClient "orig123" "abc" [] [] [] demoStateBytes
      (.error "generateInstallUrl failed")).2 =
      .serverError "Failed to initialize authentication: generateInstallUrl failed" ∧
    getSessionData (authorize [] demoClient "orig123" "abc" [] [] [] demoStateBytes
      (.error "generateInstallUrl failed")).1 demoState = some demoSessionData := by decide

/-- C7 amended: if upstream URL construction fails, `authorize` responds
with a server error, but the SessionContext stored just before remains in
the session store (the catch block performs no cleanup). -/
theorem authorize_url_failure_responds_500_but_keeps_session (store : SessionStore)
    (client : OAuthClientInformationFull) (ps pc : String) (r1 r2 r3 sb : List Nat)
    (e : String) (hsb : sb ≠ []) :
    authorize store client ps pc r1 r2 r3 sb (.error e) =
      (mapSet store (authorizeState sb) (authorizeSessionData client ps pc r1 r2 r3 sb),
       .serverError ("Failed to initialize authentication: " ++ e)) ∧
    getSessionData (authorize store client ps pc r1 r2 r3 sb (.error e)).1
      (authorizeState sb) = some (authorizeSessionData client ps pc r1 r2 r3 sb) := by
  have hne := authorizeState_ne_empty sb hsb
  constructor
  · simp [authorize, storeSessionData, hne]
  · simp [authorize, storeSessionData, hne, getSessionData, mapGet_mapSet_self]

/-- C7 amended witness: concrete failing URL construction, nonempty state
bytes; the 500 is sent and the session is retrievable afterwards. -/
theorem authorize_url_failure_witness :
    demoStateBytes ≠ [] ∧
    (authorize [] demoClient "orig123" "abc" [] [] [] demoStateBytes (.error "boom") =
      ([(demoState, demoSessionData)],
       .serverError ("Failed to initialize authentication: " ++ "boom")) ∧
     getSessionData (authorize [] demoClient "orig123" "abc" [] [] [] demoStateBytes
       (.error "boom")).1 demoState = some demoSessionData) :=
  ⟨by decide,
   authorize_url_failure_responds_500_but_keeps_session [] demoClient "orig123" "abc"
     [] [] [] demoStateBytes "boom" (by decide)⟩

/-! ## C5 -/

/-- Content standing for the previously persisted registry (holding client
c1) and for the new serialization being written. -/
def demoOldRegistryFile : List Char := "serialized-registry-holding-client-c1".toList

def demoNewRegistryContent : List Char :=
  "serialized-registry-holding-client-c1-and-client-c2".toList

/-- C5 counterexample: the save's trace is a single direct write to the
registry path — not a write-then-rename — and a crash at the start of that
write (0 bytes flushed after truncation) leaves the registry file empty:
the previously persisted file with client c1 is NOT intact. -/
theorem saveClients_not_atomic_counterexample :
    atomicReplaceTrace clientsFilePath (saveClientsOps demoNewRegistryContent) = false ∧
    mapGet (writeFileCrashed [(clientsFilePath, demoOldRegistryFile)] clientsFilePath
      demoNewRegistryContent 0) clientsFilePath = some [] ∧
    ([] : List Char) ≠ demoOldRegistryFile := by decide

/-- C5 amended: every durable write of the registry is one direct
`fs.writeFile` to the persisted path, with no temporary file or rename; an
uninterrupted save replaces the file with the new content, but an
interruption after `k` bytes leaves only a prefix of the new content — the
prior file is not preserved. -/
theorem saveClients_direct_write (fs : FileSys) (content : List Char) :
    saveClientsOps content = [FsOp.writeFile clientsFilePath content] ∧
    runFsOps fs (saveClientsOps content) = mapSet fs clientsFilePath content ∧
    atomicReplaceTrace clientsFilePath (saveClientsOps content) = false ∧
    ∀ k, mapGet (writeFileCrashed fs clientsFilePath content k) clientsFilePath =
      some (content.take k) :=
  ⟨rfl, rfl, rfl, fun k => mapGet_mapSet_self fs clientsFilePath (content.take k)⟩

/-! ## C9 -/

/-- C9: a getUserDetails call whose request context carries no bearer token,
or a token unknown to the token store, returns a descriptive error message
as ordinary tool output (a text content item starting
"Error getting user details: "), and never throws out of the handler as a
protocol-level error. -/
theorem getUserDetails_token_soft_failure (sessionToken : Option String)
    (tokens : TokenStoreMap) (slackOutcome : Except String String)
    (h : match sessionToken with
         | none => True
         | some tok => tokenStoreGetToken tokens tok = none) :
    (∃ msg, callToolHandler "getUserDetails" sessionToken tokens slackOutcome =
        .result { content := [{ type := "text",
                                text := "Error getting user details: " ++ msg }] }) ∧
    ∀ e, callToolHandler "getUserDetails" sessionToken tokens slackOutcome ≠
      .protocolError e := by
  cases sessionToken with
  | none =>
      refine ⟨⟨"No authentication token provided", rfl⟩, ?_⟩
      intro e
      simp [callToolHandler, getUserDetailsBranch]
  | some tok =>
      have h2 : tokenStoreGetToken tokens tok = none := h
      refine ⟨⟨"Invalid or expired session token", ?_⟩, ?_⟩
      · simp only [callToolHandler, getUserDetailsBranch, h2]
        rfl
      · intro e
        simp [callToolHandler, getUserDetailsBranch, h2]

/-- C9 witness: a concrete call with a token the (empty) token store does
not know; the handler returns the descriptive soft failure and no protocol
error. -/
theorem getUserDetails_token_soft_failure_witness :
    tokenStoreGetToken [] "unknown-token" = none ∧
    ((∃ msg, callToolHandler "getUserDetails" (some "unknown-token") [] (.ok "") =
        .result { content := [{ type := "text",
                                text := "Error getting user details: " ++ msg }] }) ∧
    ∀ e, callToolHandler "getUserDetails" (some "unknown-token") [] (.ok "") ≠
      .protocolError e) :=
  ⟨rfl, getUserDetails_token_soft_failure (some "unknown-token") [] (.ok "") rfl⟩

/-! ## C4: PKCE lemmas -/

/-- `List.getD` returns an element of the list or the default. -/
theorem getD_mem_or_eq {α : Type} (l : List α) (n : Nat) (d : α) :
    l.getD n d ∈ l ∨ l.getD n d = d := by
  rcases h : l[n]? with _ | a
  · right; simp [List.getD_eq_getElem?_getD, h]
  · left
    have he : l.getD n d = a := by simp [List.getD_eq_getElem?_getD, h]
    rw [he]
    exact List.getElem?_mem h

/-- Every hex digit is an RFC 3986 unreserved character. -/
theorem hexDigit_unreserved (n : Nat) : isUnreservedChar (hexDigit n) = true := by
  have hall : ∀ c ∈ "0123456789abcdef".toList, isUnreservedChar c = true := by decide
  unfold hexDigit
  rcases getD_mem_or_eq "0123456789abcdef".toList n '0' with h | h
  · exact hall _ h
  · rw [h]; decide

/-- Hex renderings consist of unreserved characters only. -/
theorem bytesToHexChars_unreserved (bs : List Nat) :
    ∀ c ∈ bytesToHexChars bs, isUnreservedChar c = true := by
  induction bs with
  | nil => intro c hc; simp [bytesToHexChars] at hc
  | cons b rest ih =>
    intro c hc
    simp only [bytesToHexChars, List.map_cons, List.flatten_cons, List.mem_append] at hc
    rcases hc with h | h
    · simp [byteToHex] at h
      rcases h with h | h <;> (rw [h]; exact hexDigit_unreserved _)
    · exact ih c (by simpa [bytesToHexChars] using h)

/-- Unreservedness is preserved by concatenation. -/
theorem append_unreserved {l1 l2 : List Char}
    (h1 : ∀ c ∈ l1, isUnreservedChar c = true)
    (h2 : ∀ c ∈ l2, isUnreservedChar c = true) :
    ∀ c ∈ l1 ++ l2, isUnreservedChar c = true := by
  intro c hc
  rcases List.mem_append.mp hc with h | h
  · exact h1 c h
  · exact h2 c h

/-- A uuid v4 string always has 36 characters. -/
theorem uuidv4_length (bs : List Nat) : (uuidv4 bs).length = 36 := by
  simp [uuidv4, bytesToHexChars, byteToHex]

/-- A uuid v4 string uses only hex digits and hyphens — all unreserved. -/
theorem uuidv4_unreserved (bs : List Nat) :
    ∀ c ∈ uuidv4 bs, isUnreservedChar c = true := by
  have hdash : ∀ c ∈ ['-'], isUnreservedChar c = true := by decide
  unfold uuidv4
  exact append_unreserved (append_unreserved (append_unreserved (append_unreserved
    (append_unreserved (append_unreserved (append_unreserved (append_unreserved
      (bytesToHexChars_unreserved _) hdash) (bytesToHexChars_unreserved _)) hdash)
      (bytesToHexChars_unreserved _)) hdash) (bytesToHexChars_unreserved _)) hdash)
    (bytesToHexChars_unreserved _)

/-- The `+`-to-`-` and `/`-to-`_` replacements carry the standard base64
alphabet onto the base64url alphabet, character by character. -/
theorem b64Char_subst (n : Nat) :
    (if (if b64Char n = '+' then '-' else b64Char n) = '/' then '_'
     else if b64Char n = '+' then '-' else b64Char n) = b64UrlChar n := by
  have h64 : n % 64 < 64 := Nat.mod_lt _ (by norm_num)
  have hall : ∀ m, m < 64 →
      (if (if b64Alphabet.getD m 'A' = '+' then '-' else b64Alphabet.getD m 'A') = '/' then '_'
       else if b64Alphabet.getD m 'A' = '+' then '-' else b64Alphabet.getD m 'A') =
        b64UrlAlphabet.getD m 'A' := by decide
  simpa [b64Char, b64UrlChar] using hall (n % 64) h64

/-- base64url alphabet characters are never the padding character. -/
theorem b64UrlChar_ne_pad (n : Nat) : b64UrlChar n ≠ '=' := by
  have h64 : n % 64 < 64 := Nat.mod_lt _ (by norm_num)
  have hall : ∀ m, m < 64 → b64UrlAlphabet.getD m 'A' ≠ '=' := by decide
  simpa [b64UrlChar] using hall (n % 64) h64

/-- The replace chain on a full 4-character base64 group substitutes each
character and strips nothing. -/
theorem b64UrlTransform_cons4 (k1 k2 k3 k4 : Nat) (rest : List Char) :
    b64UrlTransform (b64Char k1 :: b64Char k2 :: b64Char k3 :: b64Char k4 :: rest) =
      b64UrlChar k1 :: b64UrlChar k2 :: b64UrlChar k3 :: b64UrlChar k4 ::
        b64UrlTransform rest := by
  simp only [b64UrlTransform, replacePlus, replaceSlash, stripEq, List.map_cons,
    List.filter_cons, b64Char_subst k1, b64Char_subst k2, b64Char_subst k3, b64Char_subst k4]
  simp [b64UrlChar_ne_pad]

/-- The source's replace chain applied to standard padded base64 is exactly
base64url-no-padding, for every byte list. -/
theorem b64UrlTransform_base64encode : ∀ l : List Nat,
    b64UrlTransform (base64encode l) = base64UrlNoPad l
  | [] => rfl
  | [a] => by
      simp only [base64encode, base64UrlNoPad]
      simp only [b64UrlTransform, replacePlus, replaceSlash, stripEq, List.map_cons,
        List.map_nil, List.filter_cons, List.filter_nil, b64Char_subst (a / 4),
        b64Char_subst (a % 4 * 16)]
      simp [b64UrlChar_ne_pad]
  | [a, b] => by
      simp only [base64encode, base64UrlNoPad]
      simp only [b64UrlTransform, replacePlus, replaceSlash, stripEq, List.map_cons,
        List.map_nil, List.filter_cons, List.filter_nil, b64Char_subst (a / 4),
        b64Char_subst (a % 4 * 16 + b / 16), b64Char_subst (b % 16 * 4)]
      simp [b64UrlChar_ne_pad]
  | a :: b :: c :: rest => by
      have ih := b64UrlTransform_base64encode rest
      simp only [base64encode, base64UrlNoPad]
      rw [b64UrlTransform_cons4, ih]

/-- C4: every PKCE pair the generator can produce has a verifier of 108
characters (within 43–128) drawn only from unreserved characters, and a
challenge equal to the base64url-no-padding encoding of the SHA-256 of the
verifier; recomputing the challenge from the verifier with the fixed S256
transform reproduces it. -/
theorem generatePkce_spec (r1 r2 r3 : List Nat) :
    43 ≤ (generatePkce r1 r2 r3).1.length ∧
    (generatePkce r1 r2 r3).1.length ≤ 128 ∧
    (∀ c ∈ (generatePkce r1 r2 r3).1, isUnreservedChar c = true) ∧
    (generatePkce r1 r2 r3).2 =
      base64UrlNoPad (sha256 (strBytes (generatePkce r1 r2 r3).1)) ∧
    computeChallenge (generatePkce r1 r2 r3).1 = (generatePkce r1 r2 r3).2 := by
  have hlen : (generatePkce r1 r2 r3).1.length = 108 := by
    show (uuidv4 r1 ++ uuidv4 r2 ++ uuidv4 r3).length = 108
    simp [uuidv4_length]
  refine ⟨by omega, by omega, ?_, ?_, rfl⟩
  · show ∀ c ∈ uuidv4 r1 ++ uuidv4 r2 ++ uuidv4 r3, isUnreservedChar c = true
    exact append_unreserved (append_unreserved (uuidv4_unreserved r1) (uuidv4_unreserved r2))
      (uuidv4_unreserved r3)
  · exact b64UrlTransform_base64encode _
